import Mathlib

/-!
Option composition of the logger configuration (`config.go`)

A shallow embedding of `Config.buildOptions` from `config.go` together with the
declarations of `go.uber.org/zap`, `go.uber.org/zap/zapcore` and `time` that the
function calls.  The library calls are embedded structurally: an option built by
`zap.AddCaller()` is the constructor `zap.Option.AddCaller`, a sampler built by
`zapcore.NewSamplerWithOptions(core, tick, first, thereafter, opts...)` is the
constructor `zapcore.Core.NewSamplerWithOptions` holding exactly the arguments of
the call.

The receiver `cfg *Config` is a pointer, so `Config.buildOptions` is embedded with
explicit state passing: it takes the `Config` the receiver points to (the
`Sampling` pointee included) and returns the option list together with the
`Config` as it is after the call.
-/

/-! ## package `time` -/

/-- Go `time.Duration`: a count of nanoseconds (`int64`). -/
abbrev time.Duration := Int

/-- Go `time.Nanosecond`. -/
def time.Nanosecond : time.Duration := 1

/-- Go `time.Microsecond`. -/
def time.Microsecond : time.Duration := 1000 * time.Nanosecond

/-- Go `time.Millisecond`. -/
def time.Millisecond : time.Duration := 1000 * time.Microsecond

/-- Go `time.Second`. -/
def time.Second : time.Duration := 1000 * time.Millisecond

/-! ## package `zapcore` -/

/-- Severity `zapcore.Level`, with the seven levels the library declares. -/
inductive zapcore.Level where
  | DebugLevel
  | InfoLevel
  | WarnLevel
  | ErrorLevel
  | DPanicLevel
  | PanicLevel
  | FatalLevel
  deriving DecidableEq, Repr

/-- Interface value `zapcore.WriteSyncer`, identified by the sink object it holds. -/
structure zapcore.WriteSyncer where
  handle : Nat
  deriving DecidableEq, Repr

/-- Record `zapcore.Entry`, with its fields `Level`, `LoggerName` and `Message`; the fields
`Time`, `Caller` and `Stack` play no part in option composition and are left out. -/
structure zapcore.Entry where
  Level : zapcore.Level
  LoggerName : String
  Message : String
  deriving DecidableEq, Repr

/-- Decision `zapcore.SamplingDecision` reported to a sampler hook. -/
inductive zapcore.SamplingDecision where
  | LogDropped
  | LogSampled
  deriving DecidableEq, Repr

/-- What a hook does when called: it has no result, so its effect is a change of the
record of observations it maintains. -/
abbrev zapcore.HookFunc :=
  zapcore.Entry → zapcore.SamplingDecision →
    List (zapcore.Entry × zapcore.SamplingDecision) → List (zapcore.Entry × zapcore.SamplingDecision)

/-- Go function value of type `func(zapcore.Entry, zapcore.SamplingDecision)`: `none` is the
nil function. -/
abbrev zapcore.Hook := Option zapcore.HookFunc

/-- Sampler option `zapcore.SamplerOption`; `SamplerHook hook` is the value of the call
`zapcore.SamplerHook(hook)`. -/
inductive zapcore.SamplerOption where
  | SamplerHook (hook : zapcore.Hook)

/-- Interface value `zapcore.Core`: either some core identified by the object it holds, or
the value of a call `zapcore.NewSamplerWithOptions(core, tick, first, thereafter, opts...)`. -/
inductive zapcore.Core where
  | ofHandle (handle : Nat)
  | NewSamplerWithOptions (core : zapcore.Core) (tick : time.Duration) (first thereafter : Int)
      (opts : List zapcore.SamplerOption)

/-! ## package `zap` -/

/-- Struct `zap.SamplingConfig`. -/
structure zap.SamplingConfig where
  Initial : Int
  Thereafter : Int
  Hook : zapcore.Hook

/-- Logger option `zap.Option`; each constructor is the value of the library call of the same
name (`zap.ErrorOutput(w)`, `zap.Development()`, `zap.AddCaller()`, `zap.AddStacktrace(lvl)`,
`zap.WrapCore(f)`). -/
inductive zap.Option where
  | ErrorOutput (w : zapcore.WriteSyncer)
  | Development
  | AddCaller
  | AddStacktrace (lvl : zapcore.Level)
  | WrapCore (f : zapcore.Core → zapcore.Core)

/-- Constant `zap.WarnLevel`. -/
def zap.WarnLevel : zapcore.Level := zapcore.Level.WarnLevel

/-- Constant `zap.ErrorLevel`. -/
def zap.ErrorLevel : zapcore.Level := zapcore.Level.ErrorLevel

/-! ## package `log` -/

namespace log

/-- Struct `FileLogConfig`. -/
structure FileLogConfig where
  RootPath : String
  Filename : String
  MaxSize : Int
  MaxDays : Int
  MaxBackups : Int
  Compress : String
  deriving DecidableEq, Repr

/-- Struct `EncoderConfig`.  The five `Encode...` fields are function values of the library;
each is nil (`none`) or identified by the name it is registered under. -/
structure EncoderConfig where
  MessageKey : String
  LevelKey : String
  TimeKey : String
  NameKey : String
  CallerKey : String
  FunctionKey : String
  StacktraceKey : String
  SkipLineEnding : Bool
  LineEnding : String
  EncodeLevel : Option String
  EncodeTime : Option String
  EncodeDuration : Option String
  EncodeCaller : Option String
  EncodeName : Option String
  ConsoleSeparator : String
  deriving DecidableEq, Repr

/-- Struct `Config`.  `Sampling` is a pointer: `none` is nil, `some s` points to `s`. -/
structure Config where
  Level : String
  GrpcLevel : String
  Format : String
  DisableTimestamp : Bool
  Stdout : Bool
  File : FileLogConfig
  Encoder : EncoderConfig
  Development : Bool
  DisableCaller : Bool
  DisableStacktrace : Bool
  DisableErrorVerbose : Bool
  Sampling : Option zap.SamplingConfig

/-- Method `(cfg *Config) buildOptions(errSink)`, as a state transformer over the `Config` the
receiver points to.  `append(opts, o)` is `opts ++ [o]`.  The function literal passed to
`zap.WrapCore` reads `cfg.Sampling` when it is called; it is embedded with the policy as it
is at the time of the call to `buildOptions`. -/
def buildOptionsM (errSink : zapcore.WriteSyncer) : StateM Config (List zap.Option) := do
  let mut opts := [zap.Option.ErrorOutput errSink]
  if (← get).Development then
    opts := opts ++ [zap.Option.Development]
  if !(← get).DisableCaller then
    opts := opts ++ [zap.Option.AddCaller]
  let mut stackLevel := zap.ErrorLevel
  if (← get).Development then
    stackLevel := zap.WarnLevel
  if !(← get).DisableStacktrace then
    opts := opts ++ [zap.Option.AddStacktrace stackLevel]
  if let some sampling := (← get).Sampling then
    opts := opts ++ [zap.Option.WrapCore (fun core =>
      zapcore.Core.NewSamplerWithOptions core time.Second sampling.Initial sampling.Thereafter
        [zapcore.SamplerOption.SamplerHook sampling.Hook])]
  return opts

/-- Call `cfg.buildOptions(errSink)`: the returned option list, paired with the `Config` as
it is when the call returns. -/
def Config.buildOptions (cfg : Config) (errSink : zapcore.WriteSyncer) :
    List zap.Option × Config :=
  (buildOptionsM errSink).run cfg

end log

/-! ## library behaviour used by the sampler hook -/

/-- Library value `zapcore.nopSamplingHook`: the hook that does nothing. -/
def zapcore.nopSamplingHook : zapcore.HookFunc := fun _ _ seen => seen

/-- Field `hook` of the sampler that `zapcore.NewSamplerWithOptions` builds from `opts`: the
constructor starts from `nopSamplingHook` and applies the options in order, and the option
`SamplerHook(hook)` stores `hook` in the field as it is given. -/
def zapcore.samplerHook (opts : List zapcore.SamplerOption) : zapcore.Hook :=
  opts.foldl (fun _ o => match o with | zapcore.SamplerOption.SamplerHook hook => hook)
    (some zapcore.nopSamplingHook)

/-- Hook a core carries: `none` for a core that is no sampler, else the sampler field `hook`. -/
def zapcore.Core.hook : zapcore.Core → Option zapcore.Hook
  | zapcore.Core.ofHandle _ => none
  | zapcore.Core.NewSamplerWithOptions _ _ _ _ opts => some (zapcore.samplerHook opts)

/-- Go call `hook(ent, dec)` of a function value: calling the nil function panics. -/
def zapcore.callHook (hook : zapcore.Hook) (ent : zapcore.Entry) (dec : zapcore.SamplingDecision)
    (seen : List (zapcore.Entry × zapcore.SamplingDecision)) :
    Except String (List (zapcore.Entry × zapcore.SamplingDecision)) :=
  match hook with
  | none => Except.error "invalid memory address or nil pointer dereference"
  | some f => Except.ok (f ent dec seen)

/-! ## the canonical sequence, as the specification words it -/

namespace log

/-- Sampler wrapper the specification names: the sampler over the given core, ticking once a
second, with the policy's `Initial`, `Thereafter` and `Hook`. -/
def samplerOver (s : zap.SamplingConfig) : zapcore.Core → zapcore.Core := fun core =>
  zapcore.Core.NewSamplerWithOptions core time.Second s.Initial s.Thereafter
    [zapcore.SamplerOption.SamplerHook s.Hook]

/-- Stack-trace threshold the specification names: warn in development, else error. -/
def stackThreshold (development : Bool) : zapcore.Level :=
  if development then zap.WarnLevel else zap.ErrorLevel

/-- Canonical sequence of the five behaviour modifiers, in the order of the specification. -/
def canonicalSequence (errSink : zapcore.WriteSyncer) (development : Bool)
    (s : zap.SamplingConfig) : List zap.Option :=
  [zap.Option.ErrorOutput errSink, zap.Option.Development, zap.Option.AddCaller,
   zap.Option.AddStacktrace (stackThreshold development), zap.Option.WrapCore (samplerOver s)]

/-- Conditions under which each member of the canonical sequence is kept, in the same order. -/
def keepFlags (cfg : Config) : List Bool :=
  [true, cfg.Development, !cfg.DisableCaller, !cfg.DisableStacktrace, cfg.Sampling.isSome]

/-- Members of a list whose flag is set, in their order. -/
def keepWhere {α : Type} : List α → List Bool → List α
  | a :: as, b :: bs => if b then a :: keepWhere as bs else keepWhere as bs
  | _, _ => []

/-- Zero value of `Config`: every string empty, every number zero, every toggle false, every
function and pointer nil. -/
def zeroConfig : Config :=
  { Level := "", GrpcLevel := "", Format := "", DisableTimestamp := false, Stdout := false,
    File := { RootPath := "", Filename := "", MaxSize := 0, MaxDays := 0, MaxBackups := 0,
              Compress := "" },
    Encoder := { MessageKey := "", LevelKey := "", TimeKey := "", NameKey := "", CallerKey := "",
                 FunctionKey := "", StacktraceKey := "", SkipLineEnding := false,
                 LineEnding := "", EncodeLevel := none, EncodeTime := none,
                 EncodeDuration := none, EncodeCaller := none, EncodeName := none,
                 ConsoleSeparator := "" },
    Development := false, DisableCaller := false, DisableStacktrace := false,
    DisableErrorVerbose := false, Sampling := none }

/-- Production configuration with a sampling policy whose `Hook` is left unset:
`Config{Sampling: &zap.SamplingConfig{Initial: 100, Thereafter: 100}}`. -/
def sampledConfig : Config :=
  { zeroConfig with Sampling := some { Initial := 100, Thereafter := 100, Hook := none } }

/-- Configuration with a sampling policy of negative values:
`Config{Sampling: &zap.SamplingConfig{Initial: -1, Thereafter: -5}}`. -/
def negativeSamplingConfig : Config :=
  { zeroConfig with Sampling := some { Initial := -1, Thereafter := -5, Hook := none } }

/-- Development configuration writing JSON at debug level to the standard output. -/
def developmentConfig : Config :=
  { zeroConfig with Level := "debug", Format := "json", Stdout := true, Development := true }

/-- Development configuration writing text at error level to a file, without timestamps. -/
def developmentFileConfig : Config :=
  { zeroConfig with
    Level := "error", GrpcLevel := "warn", Format := "text", DisableTimestamp := true,
    File := { zeroConfig.File with Filename := "x.log", MaxSize := 1 },
    Encoder := { zeroConfig.Encoder with MessageKey := "msg", EncodeLevel := some "capital" },
    Development := true, DisableErrorVerbose := true }

/-! ## what `buildOptions` computes -/

/-- Unfolding of `buildOptions`: the list it returns, piece by piece, and the `Config` it
leaves behind. -/
theorem buildOptions_eq (cfg : Config) (errSink : zapcore.WriteSyncer) :
    cfg.buildOptions errSink =
      ([zap.Option.ErrorOutput errSink]
        ++ (if cfg.Development then [zap.Option.Development] else [])
        ++ (if cfg.DisableCaller then [] else [zap.Option.AddCaller])
        ++ (if cfg.DisableStacktrace then []
            else [zap.Option.AddStacktrace (stackThreshold cfg.Development)])
        ++ (match cfg.Sampling with
            | some s => [zap.Option.WrapCore (samplerOver s)]
            | none => []), cfg) := by
  obtain ⟨_, _, _, _, _, _, _, dev, dc, ds, _, sampling⟩ := cfg
  cases dev <;> cases dc <;> cases ds <;> cases sampling <;> rfl

/-- Selecting by flags yields a sublist. -/
theorem keepWhere_sublist {α : Type} (l : List α) (m : List Bool) :
    (keepWhere l m).Sublist l := by
  induction l generalizing m with
  | nil => cases m <;> simp [keepWhere]
  | cons a as ih =>
    cases m with
    | nil => simp [keepWhere]
    | cons b bs =>
      cases b
      · simpa [keepWhere] using (ih bs).cons a
      · simpa [keepWhere] using (ih bs).cons₂ a

/-! ## the claims -/

/-- C1: the list `buildOptions` returns is the canonical sequence
`[ErrorOutput(errSink), Development, AddCaller, AddStacktrace(level), WrapCore(sampler)]`
restricted to the members whose condition holds (always, `Development`, not `DisableCaller`,
not `DisableStacktrace`, `Sampling` non-nil): it is a sublist of that sequence, which has no
repeated member, so the order is fixed and no option occurs twice, and its length is 1 plus
the number of the four conditions that hold, hence between 1 and 5.  (`s0` only fills the
fifth place of the sequence when `Sampling` is nil, where that member is dropped.) -/
theorem buildOptions_canonical_subsequence (cfg : Config) (errSink : zapcore.WriteSyncer)
    (s0 : zap.SamplingConfig) :
    (cfg.buildOptions errSink).1
        = keepWhere (canonicalSequence errSink cfg.Development (cfg.Sampling.getD s0))
            (keepFlags cfg)
      ∧ (cfg.buildOptions errSink).1.Sublist
          (canonicalSequence errSink cfg.Development (cfg.Sampling.getD s0))
      ∧ (canonicalSequence errSink cfg.Development (cfg.Sampling.getD s0)).Nodup
      ∧ (cfg.buildOptions errSink).1.Nodup
      ∧ (cfg.buildOptions errSink).1.length
          = 1 + ([cfg.Development, !cfg.DisableCaller, !cfg.DisableStacktrace,
                  cfg.Sampling.isSome].filter (fun b => b)).length
      ∧ 1 ≤ (cfg.buildOptions errSink).1.length
      ∧ (cfg.buildOptions errSink).1.length ≤ 5 := by
  have hsel : (cfg.buildOptions errSink).1
      = keepWhere (canonicalSequence errSink cfg.Development (cfg.Sampling.getD s0))
          (keepFlags cfg) := by
    rw [buildOptions_eq]
    obtain ⟨_, _, _, _, _, _, _, dev, dc, ds, _, sampling⟩ := cfg
    cases dev <;> cases dc <;> cases ds <;> cases sampling <;> rfl
  have hcanon : (canonicalSequence errSink cfg.Development (cfg.Sampling.getD s0)).Nodup := by
    simp [canonicalSequence]
  have hsub := keepWhere_sublist
    (canonicalSequence errSink cfg.Development (cfg.Sampling.getD s0)) (keepFlags cfg)
  have hlen : (cfg.buildOptions errSink).1.length
      = 1 + ([cfg.Development, !cfg.DisableCaller, !cfg.DisableStacktrace,
              cfg.Sampling.isSome].filter (fun b => b)).length := by
    rw [buildOptions_eq]
    obtain ⟨_, _, _, _, _, _, _, dev, dc, ds, _, sampling⟩ := cfg
    cases dev <;> cases dc <;> cases ds <;> cases sampling <;> rfl
  have hle : ([cfg.Development, !cfg.DisableCaller, !cfg.DisableStacktrace,
      cfg.Sampling.isSome].filter (fun b => b)).length ≤ 4 :=
    List.length_filter_le _ _
  refine ⟨hsel, hsel ▸ hsub, hcanon, ?_, hlen, ?_, ?_⟩
  · rw [hsel]
    exact hsub.nodup hcanon
  · omega
  · omega

/-- C2: `buildOptions` returns a stack-trace option exactly when `DisableStacktrace` is
false, and the threshold of every stack-trace option it returns is `WarnLevel` when
`Development` is true and `ErrorLevel` when it is false. -/
theorem buildOptions_stacktrace (cfg : Config) (errSink : zapcore.WriteSyncer) :
    ((∃ lvl, zap.Option.AddStacktrace lvl ∈ (cfg.buildOptions errSink).1)
        ↔ cfg.DisableStacktrace = false)
      ∧ (∀ lvl, zap.Option.AddStacktrace lvl ∈ (cfg.buildOptions errSink).1 →
          lvl = (if cfg.Development = true then zap.WarnLevel else zap.ErrorLevel))
      ∧ (cfg.DisableStacktrace = false →
          zap.Option.AddStacktrace (if cfg.Development = true then zap.WarnLevel
             else zap.ErrorLevel) ∈ (cfg.buildOptions errSink).1) := by
  rw [buildOptions_eq]
  obtain ⟨_, _, _, _, _, _, _, dev, dc, ds, _, sampling⟩ := cfg
  cases dev <;> cases dc <;> cases ds <;> cases sampling <;> simp [stackThreshold]

/-- C3: whatever the `Config`, the list `buildOptions` returns is non-empty, its first
element is the error-output option for exactly the sink `errSink`, and no later element is
an error-output option. -/
theorem buildOptions_errorOutput_first (cfg : Config) (errSink : zapcore.WriteSyncer) :
    (cfg.buildOptions errSink).1 ≠ []
      ∧ (cfg.buildOptions errSink).1.head? = some (zap.Option.ErrorOutput errSink)
      ∧ ∀ o ∈ (cfg.buildOptions errSink).1.tail, ∀ w, o ≠ zap.Option.ErrorOutput w := by
  rw [buildOptions_eq]
  obtain ⟨_, _, _, _, _, _, _, dev, dc, ds, _, sampling⟩ := cfg
  cases dev <;> cases dc <;> cases ds <;> cases sampling <;> simp

/-- C4: `buildOptions` returns a core-wrapping option exactly when `Sampling` is non-nil;
every wrapper it returns builds, over the core it is given, the sampler with tick
`time.Second` (one second, 1000000000 nanoseconds), first `Sampling.Initial` and thereafter
`Sampling.Thereafter`; and with `Sampling` nil no option of the list wraps the core. -/
theorem buildOptions_sampler (cfg : Config) (errSink : zapcore.WriteSyncer) :
    ((∃ f, zap.Option.WrapCore f ∈ (cfg.buildOptions errSink).1) ↔ cfg.Sampling.isSome = true)
      ∧ (∀ s, cfg.Sampling = some s →
          (∃ f, zap.Option.WrapCore f ∈ (cfg.buildOptions errSink).1)
          ∧ ∀ f, zap.Option.WrapCore f ∈ (cfg.buildOptions errSink).1 → ∀ core,
              f core = zapcore.Core.NewSamplerWithOptions core time.Second s.Initial
                s.Thereafter [zapcore.SamplerOption.SamplerHook s.Hook])
      ∧ time.Second = 1000000000 * time.Nanosecond
      ∧ (cfg.Sampling = none →
          ∀ o ∈ (cfg.buildOptions errSink).1, ∀ f, o ≠ zap.Option.WrapCore f) := by
  rw [buildOptions_eq]
  obtain ⟨_, _, _, _, _, _, _, dev, dc, ds, _, sampling⟩ := cfg
  refine ⟨?_, ?_, by decide, ?_⟩
  · cases dev <;> cases dc <;> cases ds <;> cases sampling <;> simp
  · intro s hs
    simp only at hs
    subst hs
    cases dev <;> cases dc <;> cases ds <;> simp [samplerOver]
  · intro hs
    simp only at hs
    subst hs
    cases dev <;> cases dc <;> cases ds <;> simp

/-- C4 at a concrete input: for the production configuration with the policy
`{Initial: 100, Thereafter: 100}` the list holds a wrapper, and that wrapper applied to a core
is the sampler over it with tick one second, first 100 and thereafter 100. -/
theorem buildOptions_sampler_witness :
    (∃ f, zap.Option.WrapCore f ∈ (sampledConfig.buildOptions ⟨2⟩).1)
      ∧ ∀ f, zap.Option.WrapCore f ∈ (sampledConfig.buildOptions ⟨2⟩).1 →
          f (zapcore.Core.ofHandle 7)
            = zapcore.Core.NewSamplerWithOptions (zapcore.Core.ofHandle 7) time.Second 100 100
                [zapcore.SamplerOption.SamplerHook none] :=
  ⟨((buildOptions_sampler sampledConfig ⟨2⟩).2.1 _ rfl).1,
   fun f hf => ((buildOptions_sampler sampledConfig ⟨2⟩).2.1 _ rfl).2 f hf _⟩

/-- C5, as the code has it: a policy with a negative `Initial` or `Thereafter` is not
rejected and not clamped; `buildOptions` returns its list, whose last element is the sampler
wrapper, and that wrapper hands `Initial` and `Thereafter` to the sampler constructor
unchanged. -/
theorem buildOptions_negative_sampling_passed_on (cfg : Config) (errSink : zapcore.WriteSyncer)
    (s : zap.SamplingConfig) (hs : cfg.Sampling = some s)
    (_hneg : s.Initial < 0 ∨ s.Thereafter < 0) :
    ∃ f, (cfg.buildOptions errSink).1.getLast? = some (zap.Option.WrapCore f)
      ∧ ∀ core, f core = zapcore.Core.NewSamplerWithOptions core time.Second s.Initial
          s.Thereafter [zapcore.SamplerOption.SamplerHook s.Hook] := by
  refine ⟨samplerOver s, ?_, fun _ => rfl⟩
  rw [buildOptions_eq]
  obtain ⟨_, _, _, _, _, _, _, dev, dc, ds, _, sampling⟩ := cfg
  simp only at hs
  subst hs
  cases dev <;> cases dc <;> cases ds <;> simp

/-- C5 at a concrete input: the policy `{Initial: -1, Thereafter: -5}` satisfies the
hypotheses, and the returned wrapper builds a sampler with first -1 and thereafter -5. -/
theorem buildOptions_negative_sampling_passed_on_witness :
    negativeSamplingConfig.Sampling = some { Initial := -1, Thereafter := -5, Hook := none }
      ∧ ((-1 : Int) < 0 ∨ (-5 : Int) < 0)
      ∧ ∃ f, (negativeSamplingConfig.buildOptions ⟨1⟩).1.getLast? = some (zap.Option.WrapCore f)
          ∧ ∀ core, f core = zapcore.Core.NewSamplerWithOptions core time.Second (-1) (-5)
              [zapcore.SamplerOption.SamplerHook none] :=
  ⟨rfl, Or.inl (by decide),
   buildOptions_negative_sampling_passed_on negativeSamplingConfig ⟨1⟩
     { Initial := -1, Thereafter := -5, Hook := none } rfl (Or.inl (by decide))⟩

/-- C5 fails as stated: for the policy `{Initial: -1, Thereafter: -5}` `buildOptions`
returns `[ErrorOutput, AddCaller, AddStacktrace(ErrorLevel), WrapCore(f)]`, where `f` builds
the sampler with first -1 and thereafter -5, so a wrapper carrying the negative values is
returned. -/
theorem buildOptions_negative_sampling_not_rejected :
    ∃ f, (negativeSamplingConfig.buildOptions ⟨1⟩).1
          = [zap.Option.ErrorOutput ⟨1⟩, zap.Option.AddCaller,
             zap.Option.AddStacktrace zap.ErrorLevel, zap.Option.WrapCore f]
      ∧ f (zapcore.Core.ofHandle 0)
          = zapcore.Core.NewSamplerWithOptions (zapcore.Core.ofHandle 0) time.Second (-1) (-5)
              [zapcore.SamplerOption.SamplerHook none] :=
  ⟨_, rfl, rfl⟩

/-- C6 at the failing input: for `Config{Sampling: &zap.SamplingConfig{Initial: 100,
Thereafter: 100}}`, whose `Hook` is nil, the returned wrapper builds a sampler whose hook is
the nil function, not the default no-op hook, and calling it on a sampling decision
panics. -/
theorem buildOptions_nil_hook_installed :
    ∃ f, (sampledConfig.buildOptions ⟨1⟩).1
          = [zap.Option.ErrorOutput ⟨1⟩, zap.Option.AddCaller,
             zap.Option.AddStacktrace zap.ErrorLevel, zap.Option.WrapCore f]
      ∧ (∀ core, (f core).hook = some none)
      ∧ ∀ core hook ent dec seen, (f core).hook = some hook →
          zapcore.callHook hook ent dec seen
            = Except.error "invalid memory address or nil pointer dereference" := by
  refine ⟨_, rfl, fun _ => rfl, ?_⟩
  intro core hook ent dec seen h
  have h2 : hook = none := (Option.some.inj h).symm
  subst h2
  rfl

/-- C7: `buildOptions` returns the development option exactly when `Development` is true;
with `Development` false no element of the list is the development option. -/
theorem buildOptions_development (cfg : Config) (errSink : zapcore.WriteSyncer) :
    (zap.Option.Development ∈ (cfg.buildOptions errSink).1 ↔ cfg.Development = true)
      ∧ (cfg.Development = false →
          ∀ o ∈ (cfg.buildOptions errSink).1, o ≠ zap.Option.Development) := by
  rw [buildOptions_eq]
  obtain ⟨_, _, _, _, _, _, _, dev, dc, ds, _, sampling⟩ := cfg
  cases dev <;> cases dc <;> cases ds <;> cases sampling <;> simp

/-- C8: `buildOptions` returns the caller-annotation option exactly when `DisableCaller` is
false, and on the zero-value `Config` it returns exactly
`[ErrorOutput(errSink), AddCaller, AddStacktrace(ErrorLevel)]`. -/
theorem buildOptions_caller (cfg : Config) (errSink : zapcore.WriteSyncer) :
    (zap.Option.AddCaller ∈ (cfg.buildOptions errSink).1 ↔ cfg.DisableCaller = false)
      ∧ (zeroConfig.buildOptions errSink).1
          = [zap.Option.ErrorOutput errSink, zap.Option.AddCaller,
             zap.Option.AddStacktrace zap.ErrorLevel] := by
  refine ⟨?_, rfl⟩
  rw [buildOptions_eq]
  obtain ⟨_, _, _, _, _, _, _, dev, dc, ds, _, sampling⟩ := cfg
  cases dev <;> cases dc <;> cases ds <;> cases sampling <;> simp

/-- C9: `buildOptions` leaves the `Config` it is called on as it found it: the `Config`
after the call, the `Sampling` policy it points to included, equals the one before. -/
theorem buildOptions_config_unchanged (cfg : Config) (errSink : zapcore.WriteSyncer) :
    (cfg.buildOptions errSink).2 = cfg := by
  rw [buildOptions_eq]

/-- C10: two `Config`s that agree on `Development`, `DisableCaller`, `DisableStacktrace` and
`Sampling` yield the same option list for the same sink, whatever their other fields; and a
second call on the `Config` the first call leaves behind returns the same list again. -/
theorem buildOptions_depends_on_four_fields (c₁ c₂ : Config) (errSink : zapcore.WriteSyncer)
    (hdev : c₁.Development = c₂.Development) (hcaller : c₁.DisableCaller = c₂.DisableCaller)
    (hstack : c₁.DisableStacktrace = c₂.DisableStacktrace)
    (hsampling : c₁.Sampling = c₂.Sampling) :
    (c₁.buildOptions errSink).1 = (c₂.buildOptions errSink).1
      ∧ ((c₁.buildOptions errSink).2.buildOptions errSink).1 = (c₁.buildOptions errSink).1 := by
  simp only [buildOptions_eq, hdev, hcaller, hstack, hsampling, and_self]

/-- C10 at a concrete input: two development configurations that differ in `Level`,
`GrpcLevel`, `Format`, `DisableTimestamp`, `Stdout`, `File`, `Encoder` and
`DisableErrorVerbose` agree on the four fields and yield the same list. -/
theorem buildOptions_depends_on_four_fields_witness :
    developmentConfig.Level ≠ developmentFileConfig.Level
      ∧ developmentConfig.File ≠ developmentFileConfig.File
      ∧ developmentConfig.Encoder ≠ developmentFileConfig.Encoder
      ∧ (developmentConfig.buildOptions ⟨3⟩).1 = (developmentFileConfig.buildOptions ⟨3⟩).1
      ∧ (developmentConfig.buildOptions ⟨3⟩).1
          = [zap.Option.ErrorOutput ⟨3⟩, zap.Option.Development, zap.Option.AddCaller,
             zap.Option.AddStacktrace zap.WarnLevel] :=
  ⟨by decide, by decide, by decide,
   (buildOptions_depends_on_four_fields developmentConfig developmentFileConfig ⟨3⟩
      rfl rfl rfl rfl).1, rfl⟩

end log
